import Mathlib

/-!
# AgendaList: the list side of the calendar/agenda synchronisation

A shallow embedding of `src/expandableCalendar/agendaList.js`.  The component is a
record of its props and instance fields; every method returns the updated
component together with the calls it made on its collaborators (the native
list, the calendar context, the host handlers, the timer queue), in call order.

JavaScript values are embedded as follows: a section title, a context date and
`_topSection` are `Option String` (`none` is `undefined`); `===` is equality;
a value is truthy when it is a non-empty string.
-/

namespace AgendaList

/-- Modelled from the spec: the `UPDATE_SOURCES` table of `commons` is not part of
the sources at hand; the spec lists the update sources of a context write as
`LIST_DRAG`, `CALENDAR_INIT`, `PROGRAMMATIC` and `TOUCH`. -/
inductive UpdateSource where
  | LIST_DRAG
  | CALENDAR_INIT
  | PROGRAMMATIC
  | TOUCH
deriving DecidableEq, Repr

/-- One section of the list: only its `title` is read by the component. -/
structure Section where
  title : Option String
deriving DecidableEq, Repr

/-- A viewable item reported by the native list; `sectionOf` is its `section`
field (absent for a token that carries none). -/
structure ViewToken where
  sectionOf : Option Section
deriving DecidableEq, Repr

/-- A native scroll event; the component only forwards it, the payload is a tag. -/
structure ScrollEvent where
  tag : Nat
deriving DecidableEq, Repr

/-- Modelled from the spec: the calendar context comes from `CalendarProvider`,
which is not part of the sources at hand; the spec describes it as holding the
current date and the update source and exposing `setDate` and `setDisabled`.
The two methods are collaborators: a call on them is recorded as an effect. -/
structure Context where
  date : Option String
  updateSource : UpdateSource
deriving DecidableEq, Repr

/-- The props read by the component.  The three flags say whether the host
supplied a handler of that name (`_.invoke` calls it only then). -/
structure Props where
  sections : List Section
  context : Context
  hasOnScroll : Bool
  hasOnMomentumScrollBegin : Bool
  hasOnMomentumScrollEnd : Bool
deriving DecidableEq, Repr

/-- The argument object of `scrollToLocation`; `viewOffset` is `none` when the
header height has not been measured yet (`undefined`). -/
structure ScrollRequest where
  animated : Bool
  sectionIndex : Nat
  itemIndex : Nat
  viewPosition : Nat
  viewOffset : Option Nat
deriving DecidableEq, Repr

/-- The closure handed to `setTimeout` by `componentDidMount`: it captures the
date read at mount. -/
structure TimerCallback where
  date : Option String
deriving DecidableEq, Repr

/-- A call made by the component on one of its collaborators. -/
inductive Effect where
  | scrollToLocation (req : ScrollRequest)
  | setDate (date : Option String) (source : UpdateSource)
  | setDisabled (flag : Bool)
  | hostOnScroll (event : ScrollEvent)
  | hostOnMomentumScrollBegin (event : ScrollEvent)
  | hostOnMomentumScrollEnd (event : ScrollEvent)
  | setTimeout (callback : TimerCallback) (delay : Nat)
deriving DecidableEq, Repr

/-- The component instance: props, instance fields, the state of the ref
`this.list.current` (`listMounted`), and the platform constant
`commons.isAndroid`, which is taken as a parameter. -/
structure Component where
  props : Props
  _topSection : Option String
  didScroll : Bool
  sectionScroll : Bool
  sectionHeight : Option Nat
  listMounted : Bool
  isAndroid : Bool
deriving DecidableEq, Repr

/-- What a method call leaves behind: the component, the calls it made in
order, and whether it ended by throwing. -/
structure Outcome where
  self : Component
  effects : List Effect
  threw : Bool
deriving DecidableEq, Repr

/-- JavaScript truthiness of a title: `undefined` and the empty string are falsy. -/
def truthy : Option String → Bool
  | none => false
  | some s => decide (s ≠ "")

/-- The lodash lookup of `sections[0].title` in the props. -/
def firstTitle (sections : List Section) : Option String :=
  match sections with
  | [] => none
  | s :: _ => s.title

/-- The constructor: `_topSection` is the first title, both flags are false, the
height is unmeasured and the ref is still empty. -/
def constructor (props : Props) (isAndroid : Bool) : Component :=
  { props := props
    _topSection := firstTitle props.sections
    didScroll := false
    sectionScroll := false
    sectionHeight := none
    listMounted := false
    isAndroid := isAndroid }

/-- The loop of `getSectionIndex`: `_.map` visits every section from `index` on,
and each matching section overwrites `i` (the `return` only leaves the callback). -/
def getSectionIndexLoop (date : Option String) : List Section → Nat → Option Nat → Option Nat
  | [], _, i => i
  | s :: rest, index, i =>
    getSectionIndexLoop date rest (index + 1) (if s.title = date then some index else i)

/-- Method `getSectionIndex(date)`: `none` is `undefined`. -/
def getSectionIndex (self : Component) (date : Option String) : Option Nat :=
  getSectionIndexLoop date self.props.sections 0 none

/-- Method `scrollToSection(sectionIndex)`.  Reading `.title` of a section that
does not exist throws, after `sectionScroll` has been set. -/
def scrollToSection (self : Component) (sectionIndex : Option Nat) : Outcome :=
  match self.listMounted, sectionIndex with
  | true, some i =>
    let self1 := { self with sectionScroll := true }
    match self.props.sections[i]? with
    | none => { self := self1, effects := [], threw := true }
    | some s =>
      { self := { self1 with _topSection := s.title }
        effects := [Effect.scrollToLocation
          { animated := true
            sectionIndex := i
            itemIndex := 0
            viewPosition := 0
            viewOffset := if self.isAndroid then self.sectionHeight else some 0 }]
        threw := false }
  | _, _ => { self := self, effects := [], threw := false }

/-- Method `componentDidMount()`. -/
def componentDidMount (self : Component) : Outcome :=
  let date := self.props.context.date
  if date ≠ self._topSection then
    { self := self, effects := [Effect.setTimeout { date := date } 500], threw := false }
  else
    { self := self, effects := [], threw := false }

/-- The body of the closure scheduled by `componentDidMount`, run on the
component as it is when the timer fires. -/
def timerCallback (self : Component) (cb : TimerCallback) : Outcome :=
  scrollToSection self (getSectionIndex self cb.date)

/-- Method `componentDidUpdate(prevProps)`; `self.props` are the new props. -/
def componentDidUpdate (self : Component) (prevProps : Props) : Outcome :=
  let updateSource := self.props.context.updateSource
  let date := self.props.context.date
  if date ≠ prevProps.context.date then
    if updateSource ≠ UpdateSource.LIST_DRAG ∧ updateSource ≠ UpdateSource.CALENDAR_INIT then
      scrollToSection self (getSectionIndex self date)
    else
      { self := self, effects := [], threw := false }
  else
    { self := self, effects := [], threw := false }

/-- The lodash lookup of `section.title` in `viewableItems[0]`. -/
def topTitle (viewableItems : List ViewToken) : Option String :=
  match viewableItems with
  | [] => none
  | item :: _ =>
    match item.sectionOf with
    | none => none
    | some s => s.title

/-- Handler `onViewableItemsChanged({viewableItems})`; `none` is an event that
carries no `viewableItems`. -/
def onViewableItemsChanged (self : Component) (viewableItems : Option (List ViewToken)) :
    Outcome :=
  match viewableItems with
  | none => { self := self, effects := [], threw := false }
  | some items =>
    if self.sectionScroll then
      { self := self, effects := [], threw := false }
    else
      let topSection := topTitle items
      if truthy topSection = true ∧ topSection ≠ self._topSection then
        let self1 := { self with _topSection := topSection }
        if self1.didScroll then
          { self := self1
            effects := [Effect.setDate self1._topSection UpdateSource.LIST_DRAG]
            threw := false }
        else
          { self := self1, effects := [], threw := false }
      else
        { self := self, effects := [], threw := false }

/-- Handler `onScroll(event)`. -/
def onScroll (self : Component) (event : ScrollEvent) : Outcome :=
  { self := if self.didScroll then self else { self with didScroll := true }
    effects := if self.props.hasOnScroll then [Effect.hostOnScroll event] else []
    threw := false }

/-- Handler `onMomentumScrollBegin(event)`. -/
def onMomentumScrollBegin (self : Component) (event : ScrollEvent) : Outcome :=
  { self := self
    effects := Effect.setDisabled true ::
      (if self.props.hasOnMomentumScrollBegin then [Effect.hostOnMomentumScrollBegin event]
       else [])
    threw := false }

/-- Handler `onMomentumScrollEnd(event)`. -/
def onMomentumScrollEnd (self : Component) (event : ScrollEvent) : Outcome :=
  { self := { self with sectionScroll := false }
    effects := Effect.setDisabled false ::
      (if self.props.hasOnMomentumScrollEnd then [Effect.hostOnMomentumScrollEnd event]
       else [])
    threw := false }

/-- Handler `onHeaderLayout({nativeEvent})`: stores the measured header height. -/
def onHeaderLayout (self : Component) (height : Nat) : Component :=
  { self with sectionHeight := some height }

/-! ## The environment of the component: ref, native list events, timers -/

/-- React fills the ref `this.list` when the rendered list is mounted. -/
def attachRef (self : Component) : Component :=
  { self with listMounted := true }

/-- React empties the ref `this.list` when the list is unmounted. -/
def detachRef (self : Component) : Component :=
  { self with listMounted := false }

/-- An event delivered by the native list to one of the four handlers that the
component installs in `render`. -/
inductive ListEvent where
  | scroll (event : ScrollEvent)
  | momentumScrollBegin (event : ScrollEvent)
  | momentumScrollEnd (event : ScrollEvent)
  | viewableItemsChanged (viewableItems : Option (List ViewToken))
deriving DecidableEq, Repr

/-- Delivery of one list event to its handler. -/
def dispatch (self : Component) : ListEvent → Outcome
  | ListEvent.scroll event => onScroll self event
  | ListEvent.momentumScrollBegin event => onMomentumScrollBegin self event
  | ListEvent.momentumScrollEnd event => onMomentumScrollEnd self event
  | ListEvent.viewableItemsChanged viewableItems => onViewableItemsChanged self viewableItems

/-- Delivery of a sequence of list events, oldest first; the calls are
collected in order. -/
def run (self : Component) : List ListEvent → Outcome
  | [] => { self := self, effects := [], threw := false }
  | e :: es =>
    let o := dispatch self e
    let r := run o.self es
    { self := r.self, effects := o.effects ++ r.effects, threw := o.threw || r.threw }

/-- Whether a call is a `context.setDate`. -/
def isSetDate : Effect → Bool
  | Effect.setDate _ _ => true
  | _ => false

/-- Whether a call is a `scrollToLocation` on the list. -/
def isScrollToLocation : Effect → Bool
  | Effect.scrollToLocation _ => true
  | _ => false

/-- Whether a call is a `context.setDisabled`. -/
def isSetDisabled : Effect → Bool
  | Effect.setDisabled _ => true
  | _ => false

/-- Number of `context.setDate` calls among the calls made. -/
def setDateCalls (effects : List Effect) : Nat :=
  effects.countP isSetDate

/-- Number of `scrollToLocation` calls among the calls made. -/
def scrollCalls (effects : List Effect) : Nat :=
  effects.countP isScrollToLocation

/-- Number of `context.setDisabled` calls among the calls made. -/
def setDisabledCalls (effects : List Effect) : Nat :=
  effects.countP isSetDisabled

/-- The timers a list of calls puts on the queue: callback and delay. -/
def scheduled : List Effect → List (TimerCallback × Nat)
  | [] => []
  | Effect.setTimeout cb delay :: rest => (cb, delay) :: scheduled rest
  | _ :: rest => scheduled rest

/-- The component together with the timer queue of the runtime and the calls
made so far on the list, the context and the host. -/
structure World where
  agenda : Component
  timers : List (TimerCallback × Nat)
  calls : List Effect
deriving DecidableEq, Repr

/-- Mounting: construction, the ref is filled, then `componentDidMount` runs. -/
def World.mount (props : Props) (isAndroid : Bool) : World :=
  let o := componentDidMount (attachRef (constructor props isAndroid))
  { agenda := o.self, timers := scheduled o.effects, calls := [] }

/-- Unmounting: the component declares no `componentWillUnmount` and never calls
`clearTimeout`; the only change is that React empties the ref. -/
def World.unmount (w : World) : World :=
  { w with agenda := detachRef w.agenda }

/-- The oldest pending timer fires: it leaves the queue and its callback runs. -/
def World.fire (w : World) : World :=
  match w.timers with
  | [] => w
  | (cb, _) :: rest =>
    let o := timerCallback w.agenda cb
    { agenda := o.self, timers := rest ++ scheduled o.effects, calls := w.calls ++ o.effects }

/-- The runtime lets `n` pending timers fire, one after the other. -/
def World.fires : Nat → World → World
  | 0, w => w
  | n + 1, w => World.fires n (World.fire w)

/-! ## Example data -/

/-- Two sections, titled 2024-03-20 and 2024-03-21. -/
def marchSections : List Section :=
  [{ title := some "2024-03-20" }, { title := some "2024-03-21" }]

/-- Props over `marchSections` with the given context and no host handler. -/
def marchProps (date : Option String) (source : UpdateSource) : Props :=
  { sections := marchSections
    context := { date := date, updateSource := source }
    hasOnScroll := false
    hasOnMomentumScrollBegin := false
    hasOnMomentumScrollEnd := false }

/-- A mounted component over `marchSections` whose context and last-synced
section are both 2024-03-20. -/
def marchAgenda : Component :=
  attachRef (constructor (marchProps (some "2024-03-20") UpdateSource.CALENDAR_INIT) false)

/-- A mounted component on Android over `marchSections` whose section header has
been measured at a height of 40. -/
def androidAgenda : Component :=
  onHeaderLayout
    (attachRef (constructor (marchProps (some "2024-03-20") UpdateSource.CALENDAR_INIT) true)) 40

/-- The component mounted with context date 2024-03-21 (so that its last-synced
section is the first one, 2024-03-20) after a touch on 2024-03-20 has reached
its props. -/
def touchedAgenda : Component :=
  { attachRef (constructor (marchProps (some "2024-03-21") UpdateSource.CALENDAR_INIT) false)
    with props := marchProps (some "2024-03-20") UpdateSource.TOUCH }

/-- A viewable-items report whose first item belongs to the section titled `title`. -/
def report (title : Option String) : Option (List ViewToken) :=
  some [{ sectionOf := some { title := title } }]

end AgendaList

namespace AgendaList

/-! ## Lemmas on the section lookup -/

theorem loop_no_match (date : Option String) (l : List Section) (k : Nat) (acc : Option Nat)
    (h : ∀ s ∈ l, s.title ≠ date) : getSectionIndexLoop date l k acc = acc := by
  induction l generalizing k acc with
  | nil => rfl
  | cons s rest ih =>
    have hs : s.title ≠ date := h s (List.mem_cons_self s rest)
    have hr : ∀ t ∈ rest, t.title ≠ date := fun t ht => h t (List.mem_cons_of_mem s ht)
    simp [getSectionIndexLoop, hs, ih (k + 1) acc hr]

theorem loop_match (date : Option String) (l : List Section) (k : Nat) (acc : Option Nat) :
    (∃ s ∈ l, s.title = date) →
      ∃ j s, getSectionIndexLoop date l k acc = some (k + j) ∧ l[j]? = some s ∧ s.title = date := by
  induction l generalizing k acc with
  | nil => intro h; obtain ⟨s, hs, _⟩ := h; cases hs
  | cons s rest ih =>
    intro _
    by_cases hr : ∃ t ∈ rest, t.title = date
    · obtain ⟨j, t, hj, hget, ht⟩ := ih (k + 1) (if s.title = date then some k else acc) hr
      refine ⟨j + 1, t, ?_, ?_, ht⟩
      · simp only [getSectionIndexLoop]
        rw [hj]
        congr 1
        omega
      · simpa using hget
    · have hr2 : ∀ t ∈ rest, t.title ≠ date := by
        intro t ht heq
        exact hr ⟨t, ht, heq⟩
      have hs : s.title = date := by
        rename_i h
        obtain ⟨t, ht, heq⟩ := h
        rcases List.mem_cons.mp ht with rfl | ht2
        · exact heq
        · exact absurd heq (hr2 t ht2)
      refine ⟨0, s, ?_, ?_, hs⟩
      · simp [getSectionIndexLoop, hs, loop_no_match date rest (k + 1) (some k) hr2]
      · simp

theorem getSectionIndex_none (self : Component) (date : Option String)
    (h : ∀ s ∈ self.props.sections, s.title ≠ date) : getSectionIndex self date = none :=
  loop_no_match date self.props.sections 0 none h

theorem getSectionIndex_some (self : Component) (date : Option String)
    (h : ∃ s ∈ self.props.sections, s.title = date) :
    ∃ j s, getSectionIndex self date = some j ∧ self.props.sections[j]? = some s ∧
      s.title = date := by
  obtain ⟨j, s, hj, hget, ht⟩ := loop_match date self.props.sections 0 none h
  exact ⟨j, s, by simpa [getSectionIndex] using hj, hget, ht⟩

theorem index_unique (l : List Section) (i j : Nat) (s t : Section)
    (hu : (l.map (fun x => x.title)).Nodup)
    (hi : l[i]? = some s) (hj : l[j]? = some t) (h : s.title = t.title) : i = j := by
  have hil : i < (l.map (fun x => x.title)).length := by
    have := (List.getElem?_eq_some_iff.mp hi).1
    simpa using this
  have hjl : j < (l.map (fun x => x.title)).length := by
    have := (List.getElem?_eq_some_iff.mp hj).1
    simpa using this
  have e1 : (l.map (fun x => x.title))[i]? = some s.title := by simp [hi]
  have e2 : (l.map (fun x => x.title))[j]? = some t.title := by simp [hj]
  have := (List.nodup_iff_injective_get.mp hu)
  have hget : (l.map (fun x => x.title)).get ⟨i, hil⟩ = (l.map (fun x => x.title)).get ⟨j, hjl⟩ := by
    have a1 := List.getElem?_eq_some_iff.mp e1
    have a2 := List.getElem?_eq_some_iff.mp e2
    obtain ⟨_, a1⟩ := a1
    obtain ⟨_, a2⟩ := a2
    simp only [List.get_eq_getElem]
    rw [a1, a2, h]
  have := this hget
  simpa using congrArg Fin.val this

theorem getSectionIndex_unique (self : Component) (date : Option String) (i : Nat) (s : Section)
    (hu : (self.props.sections.map (fun x => x.title)).Nodup)
    (hi : self.props.sections[i]? = some s) (ht : s.title = date) :
    getSectionIndex self date = some i := by
  have hex : ∃ t ∈ self.props.sections, t.title = date :=
    ⟨s, List.getElem?_mem hi, ht⟩
  obtain ⟨j, t, hj, hget, htt⟩ := getSectionIndex_some self date hex
  have : i = j := index_unique self.props.sections i j s t hu hi hget (ht.trans htt.symm)
  rw [hj, this]

/-! ## Lemmas on `scrollToSection` -/

theorem scrollToSection_none (self : Component) :
    scrollToSection self none = { self := self, effects := [], threw := false } := by
  cases h : self.listMounted <;> simp [scrollToSection, h]

theorem scrollToSection_unmounted (self : Component) (idx : Option Nat)
    (h : self.listMounted = false) :
    scrollToSection self idx = { self := self, effects := [], threw := false } := by
  cases idx <;> simp [scrollToSection, h]

theorem scrollToSection_valid (self : Component) (i : Nat) (s : Section)
    (hm : self.listMounted = true) (hi : self.props.sections[i]? = some s) :
    scrollToSection self (some i) =
      { self := { self with sectionScroll := true, _topSection := s.title }
        effects := [Effect.scrollToLocation
          { animated := true
            sectionIndex := i
            itemIndex := 0
            viewPosition := 0
            viewOffset := if self.isAndroid then self.sectionHeight else some 0 }]
        threw := false } := by
  simp [scrollToSection, hm, hi]

/-! ## Context updates -/

/-- C1: on a mounted list, a context update whose date changed, whose source is
neither LIST_DRAG nor CALENDAR_INIT and whose new date is the title of the
section at index `i` (titles being unique) makes `componentDidUpdate` issue
exactly one call, a `scrollToLocation` for section `i` with item 0, view
position 0 and the measured header height as offset on Android (0 elsewhere);
it sets `sectionScroll` and records the section title in `_topSection`. -/
theorem componentDidUpdate_scrolls_to_section (self : Component) (prevProps : Props)
    (i : Nat) (s : Section)
    (hm : self.listMounted = true)
    (hd : self.props.context.date ≠ prevProps.context.date)
    (h1 : self.props.context.updateSource ≠ UpdateSource.LIST_DRAG)
    (h2 : self.props.context.updateSource ≠ UpdateSource.CALENDAR_INIT)
    (hu : (self.props.sections.map (fun x => x.title)).Nodup)
    (hi : self.props.sections[i]? = some s)
    (ht : s.title = self.props.context.date) :
    (componentDidUpdate self prevProps).effects =
        [Effect.scrollToLocation
          { animated := true
            sectionIndex := i
            itemIndex := 0
            viewPosition := 0
            viewOffset := if self.isAndroid then self.sectionHeight else some 0 }] ∧
      scrollCalls (componentDidUpdate self prevProps).effects = 1 ∧
      (componentDidUpdate self prevProps).self.sectionScroll = true ∧
      (componentDidUpdate self prevProps).self._topSection = s.title ∧
      (componentDidUpdate self prevProps).threw = false := by
  have hidx := getSectionIndex_unique self self.props.context.date i s hu hi ht
  have hrun : componentDidUpdate self prevProps =
      scrollToSection self (some i) := by
    simp [componentDidUpdate, hd, h1, h2, hidx]
  rw [hrun, scrollToSection_valid self i s hm hi]
  simp [scrollCalls, isScrollToLocation]

/-- Witness for C1: on Android, with a header measured at 40, a touch moves the
context from 2024-03-20 to 2024-03-21; the list scrolls to section 1 with
offset 40. -/
theorem componentDidUpdate_scrolls_to_section_witness :
    (componentDidUpdate
        { androidAgenda with props := marchProps (some "2024-03-21") UpdateSource.TOUCH }
        androidAgenda.props).effects =
      [Effect.scrollToLocation
        { animated := true, sectionIndex := 1, itemIndex := 0, viewPosition := 0,
          viewOffset := some 40 }] :=
  (componentDidUpdate_scrolls_to_section
    { androidAgenda with props := marchProps (some "2024-03-21") UpdateSource.TOUCH }
    androidAgenda.props 1 { title := some "2024-03-21" }
    (by decide) (by decide) (by decide) (by decide) (by decide) (by decide) (by decide)).1

/-- C4: for a date that is no section title the scroll request is a no-op:
`getSectionIndex` finds no index, and `scrollToSection`, `componentDidUpdate`
(when that date is the context date) and the mount-time timer callback each
leave the component as it was, make no call at all (no `scrollToLocation`, no
`setDate`) and do not throw. -/
theorem missing_section_is_noop (self : Component) (prevProps : Props) (date : Option String)
    (h : ∀ s ∈ self.props.sections, s.title ≠ date) :
    getSectionIndex self date = none ∧
      scrollToSection self (getSectionIndex self date) =
        { self := self, effects := [], threw := false } ∧
      (self.props.context.date = date →
        componentDidUpdate self prevProps = { self := self, effects := [], threw := false }) ∧
      timerCallback self { date := date } = { self := self, effects := [], threw := false } := by
  have hidx := getSectionIndex_none self date h
  refine ⟨hidx, ?_, ?_, ?_⟩
  · rw [hidx, scrollToSection_none]
  · intro hdate
    subst hdate
    simp only [componentDidUpdate, hidx, scrollToSection_none]
    split <;> [split; rfl] <;> rfl
  · simp [timerCallback, hidx, scrollToSection_none]

/-- Witness for C4: 2024-03-22 is absent from the two March sections. -/
theorem missing_section_is_noop_witness :
    getSectionIndex marchAgenda (some "2024-03-22") = none ∧
      componentDidUpdate
          { marchAgenda with props := marchProps (some "2024-03-22") UpdateSource.TOUCH }
          marchAgenda.props =
        { self := { marchAgenda with props := marchProps (some "2024-03-22") UpdateSource.TOUCH }
          effects := []
          threw := false } :=
  ⟨(missing_section_is_noop marchAgenda marchAgenda.props (some "2024-03-22")
      (by decide)).1,
   (missing_section_is_noop
      { marchAgenda with props := marchProps (some "2024-03-22") UpdateSource.TOUCH }
      marchAgenda.props (some "2024-03-22") (by decide)).2.2.1 rfl⟩

/-- C5: when the update source is LIST_DRAG or CALENDAR_INIT, or the context
date is the one of the previous props, `componentDidUpdate` makes no call (no
`scrollToLocation`, no `setDate`), does not throw, and leaves the component,
hence `sectionScroll`, `_topSection` and `didScroll`, unchanged. -/
theorem componentDidUpdate_ignores_echo (self : Component) (prevProps : Props)
    (h : self.props.context.updateSource = UpdateSource.LIST_DRAG ∨
      self.props.context.updateSource = UpdateSource.CALENDAR_INIT ∨
      self.props.context.date = prevProps.context.date) :
    (componentDidUpdate self prevProps).effects = [] ∧
      scrollCalls (componentDidUpdate self prevProps).effects = 0 ∧
      setDateCalls (componentDidUpdate self prevProps).effects = 0 ∧
      (componentDidUpdate self prevProps).self.sectionScroll = self.sectionScroll ∧
      (componentDidUpdate self prevProps).self._topSection = self._topSection ∧
      (componentDidUpdate self prevProps).self.didScroll = self.didScroll ∧
      (componentDidUpdate self prevProps).self = self ∧
      (componentDidUpdate self prevProps).threw = false := by
  have hrun : componentDidUpdate self prevProps =
      { self := self, effects := [], threw := false } := by
    rcases h with h | h | h
    · simp [componentDidUpdate, h]
    · simp [componentDidUpdate, h]
    · simp [componentDidUpdate, h]
  rw [hrun]
  simp [scrollCalls, setDateCalls]

/-- Witness for C5: the list itself wrote 2024-03-21 with source LIST_DRAG. -/
theorem componentDidUpdate_ignores_echo_witness :
    (componentDidUpdate
        { marchAgenda with props := marchProps (some "2024-03-21") UpdateSource.LIST_DRAG }
        marchAgenda.props).effects = [] :=
  (componentDidUpdate_ignores_echo
    { marchAgenda with props := marchProps (some "2024-03-21") UpdateSource.LIST_DRAG }
    marchAgenda.props (Or.inl rfl)).1

/-- C8, as stated, fails: the component was mounted with context date 2024-03-21
and last-synced section 2024-03-20; a touch then sets the context to
2024-03-20, the current `_topSection`, and `componentDidUpdate` still issues a
`scrollToLocation`. -/
theorem componentDidUpdate_scrolls_to_synced_section :
    touchedAgenda.props.context.updateSource ≠ UpdateSource.LIST_DRAG ∧
      touchedAgenda.props.context.updateSource ≠ UpdateSource.CALENDAR_INIT ∧
      touchedAgenda.props.context.date = touchedAgenda._topSection ∧
      ¬ scrollCalls (componentDidUpdate touchedAgenda
          (marchProps (some "2024-03-21") UpdateSource.CALENDAR_INIT)).effects = 0 := by
  decide

/-- C8, amended: `componentDidUpdate` does not consult `_topSection`.  For a
context update with a source other than LIST_DRAG and CALENDAR_INIT whose new
date equals `_topSection`, no `scrollToLocation` is issued exactly when the
date is the one of the previous props, or the list is not mounted, or that
`_topSection` is no section title; in every case at most one is issued. -/
theorem componentDidUpdate_scroll_iff (self : Component) (prevProps : Props)
    (h1 : self.props.context.updateSource ≠ UpdateSource.LIST_DRAG)
    (h2 : self.props.context.updateSource ≠ UpdateSource.CALENDAR_INIT)
    (ht : self.props.context.date = self._topSection) :
    (scrollCalls (componentDidUpdate self prevProps).effects = 0 ↔
        (self.props.context.date = prevProps.context.date ∨ self.listMounted = false ∨
          ∀ s ∈ self.props.sections, s.title ≠ self._topSection)) ∧
      scrollCalls (componentDidUpdate self prevProps).effects ≤ 1 := by
  rw [← ht]
  by_cases hd : self.props.context.date = prevProps.context.date
  · simp [componentDidUpdate, hd, scrollCalls]
  · have hrun : componentDidUpdate self prevProps =
        scrollToSection self (getSectionIndex self self.props.context.date) := by
      simp [componentDidUpdate, hd, h1, h2]
    rw [hrun]
    cases hm : self.listMounted
    · simp [scrollToSection_unmounted self _ hm, scrollCalls]
    · by_cases hex : ∃ s ∈ self.props.sections, s.title = self.props.context.date
      · obtain ⟨j, s, hj, hget, _⟩ := getSectionIndex_some self _ hex
        rw [hj, scrollToSection_valid self j s hm hget]
        have hne : ¬ ∀ s ∈ self.props.sections, s.title ≠ self.props.context.date := by
          intro hall
          obtain ⟨t, htm, hte⟩ := hex
          exact hall t htm hte
        simp [scrollCalls, isScrollToLocation, hd, hne]
      · have hall : ∀ s ∈ self.props.sections, s.title ≠ self.props.context.date := by
          intro t htm hte
          exact hex ⟨t, htm, hte⟩
        rw [getSectionIndex_none self _ hall, scrollToSection_none]
        simp only [scrollCalls, List.countP_nil, Nat.zero_le, and_true, true_iff]
        exact Or.inr (Or.inr hall)

/-- Witness for the amended C8: at the touched component the date changed, the
list is mounted and 2024-03-20 is a section title, so a request is issued. -/
theorem componentDidUpdate_scroll_iff_witness :
    (scrollCalls (componentDidUpdate touchedAgenda
        (marchProps (some "2024-03-21") UpdateSource.CALENDAR_INIT)).effects = 0 ↔
      (touchedAgenda.props.context.date =
          (marchProps (some "2024-03-21") UpdateSource.CALENDAR_INIT).context.date ∨
        touchedAgenda.listMounted = false ∨
        ∀ s ∈ touchedAgenda.props.sections, s.title ≠ touchedAgenda._topSection)) :=
  (componentDidUpdate_scroll_iff touchedAgenda
    (marchProps (some "2024-03-21") UpdateSource.CALENDAR_INIT)
    (by decide) (by decide) (by decide)).1

/-! ## Visible-section reports -/

/-- C3, as stated, fails: after a scroll frame, with no programmatic scroll in
flight, a report whose first section has the empty string as title (a defined
title that differs from the last-synced section) writes nothing, because the
guard tests the title for truthiness. -/
theorem onViewableItemsChanged_empty_title_not_written :
    (report (some "")).isSome = true ∧
      (onScroll marchAgenda { tag := 0 }).self.sectionScroll = false ∧
      ((report (some "")).bind topTitle).isSome = true ∧
      (report (some "")).bind topTitle ≠ (onScroll marchAgenda { tag := 0 }).self._topSection ∧
      (onScroll marchAgenda { tag := 0 }).self.didScroll = true ∧
      ¬ setDateCalls (onViewableItemsChanged (onScroll marchAgenda { tag := 0 }).self
          (report (some ""))).effects = 1 := by
  decide

/-- C3, amended: `onViewableItemsChanged` calls `context.setDate` exactly once if
and only if `viewableItems` is present, `sectionScroll` is false, the title of
the section of the first viewable item is a non-empty string that differs from
`_topSection`, and `didScroll` is true; otherwise it makes no call.  The call it
makes is `setDate(title, LIST_DRAG)`, and `_topSection` then holds that title. -/
theorem onViewableItemsChanged_setDate_iff (self : Component)
    (viewableItems : Option (List ViewToken)) :
    (setDateCalls (onViewableItemsChanged self viewableItems).effects = 1 ↔
        (viewableItems.isSome = true ∧ self.sectionScroll = false ∧
          (∃ t, viewableItems.bind topTitle = some t ∧ t ≠ "") ∧
          viewableItems.bind topTitle ≠ self._topSection ∧ self.didScroll = true)) ∧
      ((onViewableItemsChanged self viewableItems).effects = [] ∨
        ((onViewableItemsChanged self viewableItems).effects =
            [Effect.setDate (viewableItems.bind topTitle) UpdateSource.LIST_DRAG] ∧
          (onViewableItemsChanged self viewableItems).self._topSection =
            viewableItems.bind topTitle)) := by
  cases viewableItems with
  | none => simp [onViewableItemsChanged, setDateCalls]
  | some items =>
    cases hs : self.sectionScroll
    · cases htop : topTitle items with
      | none => simp [onViewableItemsChanged, setDateCalls, hs, htop, truthy]
      | some t =>
        by_cases he : t = ""
        · simp [onViewableItemsChanged, setDateCalls, hs, htop, truthy, he]
        · by_cases hsame : some t = self._topSection
          · simp [onViewableItemsChanged, setDateCalls, hs, htop, truthy, he, ← hsame]
          · cases hdid : self.didScroll <;>
              simp [onViewableItemsChanged, setDateCalls, isSetDate, hs, htop, truthy, he,
                hsame, hdid]
    · simp [onViewableItemsChanged, setDateCalls, hs]

/-! ## Lemmas on sequences of list events -/

theorem setDateCalls_append (a b : List Effect) :
    setDateCalls (a ++ b) = setDateCalls a + setDateCalls b := by
  simp [setDateCalls, List.countP_append]

theorem run_append (c : Component) (a b : List ListEvent) :
    (run c (a ++ b)).self = (run (run c a).self b).self ∧
      (run c (a ++ b)).effects = (run c a).effects ++ (run (run c a).self b).effects := by
  induction a generalizing c with
  | nil => simp [run]
  | cons e es ih =>
    obtain ⟨h1, h2⟩ := ih (dispatch c e).self
    simp [run, h1, h2, List.append_assoc]

theorem dispatch_didScroll (c : Component) (e : ListEvent) :
    (dispatch c e).self.didScroll = true ↔
      (c.didScroll = true ∨ ∃ ev, e = ListEvent.scroll ev) := by
  cases e with
  | scroll ev =>
    cases h : c.didScroll <;> simp [dispatch, onScroll, h]
  | momentumScrollBegin ev => simp [dispatch, onMomentumScrollBegin]
  | momentumScrollEnd ev => simp [dispatch, onMomentumScrollEnd]
  | viewableItemsChanged v =>
    cases v with
    | none => simp [dispatch, onViewableItemsChanged]
    | some items =>
      simp only [dispatch, onViewableItemsChanged]
      split <;> [skip; split <;> [split; skip]] <;> simp

theorem run_didScroll (c : Component) (es : List ListEvent) :
    (run c es).self.didScroll = true ↔
      (c.didScroll = true ∨ ∃ ev, ListEvent.scroll ev ∈ es) := by
  induction es generalizing c with
  | nil => simp [run]
  | cons e es ih =>
    simp only [run, ih (dispatch c e).self, dispatch_didScroll, List.mem_cons]
    constructor
    · rintro ((h | ⟨ev, rfl⟩) | ⟨ev, h⟩)
      · exact Or.inl h
      · exact Or.inr ⟨ev, Or.inl rfl⟩
      · exact Or.inr ⟨ev, Or.inr h⟩
    · rintro (h | ⟨ev, h | h⟩)
      · exact Or.inl (Or.inl h)
      · exact Or.inl (Or.inr ⟨ev, h.symm⟩)
      · exact Or.inr ⟨ev, h⟩

theorem dispatch_keeps_idle (c : Component) (e : ListEvent) (h : c.sectionScroll = false) :
    (dispatch c e).self.sectionScroll = false := by
  cases e with
  | scroll ev => cases hd : c.didScroll <;> simp [dispatch, onScroll, h, hd]
  | momentumScrollBegin ev => simp [dispatch, onMomentumScrollBegin, h]
  | momentumScrollEnd ev => simp [dispatch, onMomentumScrollEnd]
  | viewableItemsChanged v =>
    cases v with
    | none => simp [dispatch, onViewableItemsChanged, h]
    | some items =>
      simp only [dispatch, onViewableItemsChanged]
      split <;> [skip; split <;> [split; skip]] <;> simp [h]

theorem run_keeps_idle (c : Component) (es : List ListEvent) (h : c.sectionScroll = false) :
    (run c es).self.sectionScroll = false := by
  induction es generalizing c with
  | nil => simpa [run] using h
  | cons e es ih => simpa [run] using ih (dispatch c e).self (dispatch_keeps_idle c e h)

theorem dispatch_suppressed (c : Component) (e : ListEvent) (h : c.sectionScroll = true)
    (hne : ∀ ev, e ≠ ListEvent.momentumScrollEnd ev) :
    (dispatch c e).self.sectionScroll = true ∧
      (dispatch c e).self._topSection = c._topSection ∧
      setDateCalls (dispatch c e).effects = 0 := by
  cases e with
  | scroll ev =>
    cases hd : c.didScroll <;> cases hh : c.props.hasOnScroll <;>
      simp [dispatch, onScroll, h, hd, hh, setDateCalls, isSetDate]
  | momentumScrollBegin ev =>
    cases hh : c.props.hasOnMomentumScrollBegin <;>
      simp [dispatch, onMomentumScrollBegin, h, hh, setDateCalls, isSetDate]
  | momentumScrollEnd ev => exact absurd rfl (hne ev)
  | viewableItemsChanged v =>
    cases v <;> simp [dispatch, onViewableItemsChanged, h, setDateCalls]

theorem run_suppressed (c : Component) (es : List ListEvent) (h : c.sectionScroll = true)
    (hne : ∀ ev, ListEvent.momentumScrollEnd ev ∉ es) :
    (run c es).self.sectionScroll = true ∧
      (run c es).self._topSection = c._topSection ∧
      setDateCalls (run c es).effects = 0 := by
  induction es generalizing c with
  | nil => simp [run, h, setDateCalls]
  | cons e es ih =>
    have hstep := dispatch_suppressed c e h
      (fun ev heq => hne ev (by rw [heq]; exact List.mem_cons_self _ _))
    have hrest := ih (dispatch c e).self hstep.1
      (fun ev hmem => hne ev (List.mem_cons_of_mem _ hmem))
    refine ⟨by simpa [run] using hrest.1, ?_, ?_⟩
    · simp only [run]
      rw [hrest.2.1, hstep.2.1]
    · simp only [run]
      rw [setDateCalls_append, hstep.2.2, hrest.2.2]

theorem dispatch_same_section (c : Component) (e : ListEvent)
    (hrep : ∀ v, e = ListEvent.viewableItemsChanged v → v.bind topTitle = c._topSection) :
    (dispatch c e).self._topSection = c._topSection ∧
      setDateCalls (dispatch c e).effects = 0 := by
  cases e with
  | scroll ev =>
    cases hd : c.didScroll <;> cases hh : c.props.hasOnScroll <;>
      simp [dispatch, onScroll, hd, hh, setDateCalls, isSetDate]
  | momentumScrollBegin ev =>
    cases hh : c.props.hasOnMomentumScrollBegin <;>
      simp [dispatch, onMomentumScrollBegin, hh, setDateCalls, isSetDate]
  | momentumScrollEnd ev =>
    cases hh : c.props.hasOnMomentumScrollEnd <;>
      simp [dispatch, onMomentumScrollEnd, hh, setDateCalls, isSetDate]
  | viewableItemsChanged v =>
    have hv := hrep v rfl
    cases v with
    | none => simp [dispatch, onViewableItemsChanged, setDateCalls]
    | some items =>
      have ht : topTitle items = c._topSection := by simpa using hv
      cases hs : c.sectionScroll <;>
        simp [dispatch, onViewableItemsChanged, hs, ht, setDateCalls]

theorem run_same_section (c : Component) (es : List ListEvent)
    (hrep : ∀ v, ListEvent.viewableItemsChanged v ∈ es → v.bind topTitle = c._topSection) :
    (run c es).self._topSection = c._topSection ∧ setDateCalls (run c es).effects = 0 := by
  induction es generalizing c with
  | nil => simp [run, setDateCalls]
  | cons e es ih =>
    have hstep := dispatch_same_section c e
      (fun v heq => hrep v (by rw [heq]; exact List.mem_cons_self _ _))
    have hrest := ih (dispatch c e).self
      (fun v hmem => by rw [hstep.1]; exact hrep v (List.mem_cons_of_mem _ hmem))
    constructor
    · simp only [run]
      rw [hrest.1, hstep.1]
    · simp only [run]
      rw [setDateCalls_append, hstep.2, hrest.2]

/-! ## Feedback suppression and the scroll latch -/

/-- C2: after `scrollToSection` has scrolled a mounted list to section `s`, a
sequence of list events whose visible-section reports all name `s` makes no
`context.setDate` call; and after any sequence of list events without an
`onMomentumScrollEnd`, no `setDate` call has been made, `_topSection` is still
the title of `s`, and a further `onViewableItemsChanged`, whatever it reports,
makes no call and leaves the component unchanged. -/
theorem programmatic_scroll_suppresses_feedback (self : Component) (i : Nat) (s : Section)
    (es1 es2 : List ListEvent) (viewableItems : Option (List ViewToken))
    (hm : self.listMounted = true)
    (hi : self.props.sections[i]? = some s)
    (h1 : ∀ v, ListEvent.viewableItemsChanged v ∈ es1 → v.bind topTitle = s.title)
    (h2 : ∀ ev, ListEvent.momentumScrollEnd ev ∉ es2) :
    setDateCalls (run (scrollToSection self (some i)).self es1).effects = 0 ∧
      setDateCalls (run (scrollToSection self (some i)).self es2).effects = 0 ∧
      (run (scrollToSection self (some i)).self es2).self._topSection = s.title ∧
      onViewableItemsChanged (run (scrollToSection self (some i)).self es2).self viewableItems =
        { self := (run (scrollToSection self (some i)).self es2).self
          effects := []
          threw := false } := by
  rw [scrollToSection_valid self i s hm hi]
  refine ⟨?_, ?_, ?_, ?_⟩
  · exact (run_same_section _ es1 (by simpa using h1)).2
  · exact (run_suppressed _ es2 rfl h2).2.2
  · exact (run_suppressed _ es2 rfl h2).2.1
  · have hflag := (run_suppressed
      { self with sectionScroll := true, _topSection := s.title } es2 rfl h2).1
    cases viewableItems <;> simp [onViewableItemsChanged, hflag]

/-- Witness for C2: the list was scrolled to section 1 (2024-03-21); in the
first sequence every report names that section, in the second one the momentum
has not ended yet and the report names another section. -/
theorem programmatic_scroll_suppresses_feedback_witness :
    setDateCalls (run (scrollToSection marchAgenda (some 1)).self
        [ListEvent.scroll { tag := 1 },
         ListEvent.momentumScrollEnd { tag := 2 },
         ListEvent.viewableItemsChanged (report (some "2024-03-21"))]).effects = 0 ∧
      setDateCalls (run (scrollToSection marchAgenda (some 1)).self
        [ListEvent.scroll { tag := 1 },
         ListEvent.viewableItemsChanged (report (some "2024-03-20"))]).effects = 0 :=
  have h := programmatic_scroll_suppresses_feedback marchAgenda 1 { title := some "2024-03-21" }
    [ListEvent.scroll { tag := 1 },
     ListEvent.momentumScrollEnd { tag := 2 },
     ListEvent.viewableItemsChanged (report (some "2024-03-21"))]
    [ListEvent.scroll { tag := 1 },
     ListEvent.viewableItemsChanged (report (some "2024-03-20"))]
    (report (some "2024-03-20")) (by decide) (by decide)
    (by
      intro v hv
      simp only [List.mem_cons, List.mem_singleton, List.mem_nil_iff, or_false] at hv
      rcases hv with hv | hv | hv
      · cases hv
      · cases hv
      · cases hv; rfl)
    (by
      intro ev hev
      simp only [List.mem_cons, List.mem_singleton, List.mem_nil_iff, or_false] at hev
      rcases hev with hev | hev <;> cases hev)
  ⟨h.1, h.2.1⟩

/-- C9, as stated, fails: after a scroll frame and the end of the momentum,
`didScroll` is still true, and a report of a new top section is written to the
context. -/
theorem didScroll_survives_momentum_end :
    (run marchAgenda
        [ListEvent.scroll { tag := 1 }, ListEvent.momentumScrollEnd { tag := 2 }]).self.didScroll
        = true ∧
      ¬ setDateCalls (onViewableItemsChanged
          (run marchAgenda
            [ListEvent.scroll { tag := 1 }, ListEvent.momentumScrollEnd { tag := 2 }]).self
          (report (some "2024-03-21"))).effects = 0 := by
  decide

/-- C9, amended: `onScroll` sets `didScroll` and nothing clears it;
`onMomentumScrollEnd` leaves it as it was.  After the events `es1`, an
`onMomentumScrollEnd` and events `es2` without an `onScroll`, `didScroll` is
true exactly when it was true at the start or `es1` holds an `onScroll`; a
report of a new non-empty top section then makes no call when `didScroll` is
false and the single call `setDate(title, LIST_DRAG)` when it is true. -/
theorem didScroll_is_a_latch (self : Component) (es1 es2 : List ListEvent) (ev : ScrollEvent)
    (items : List ViewToken) (t : String)
    (h2 : ∀ e, ListEvent.scroll e ∉ es2)
    (ht : topTitle items = some t) (hne : t ≠ "")
    (hnew : some t ≠
      (run self (es1 ++ ListEvent.momentumScrollEnd ev :: es2)).self._topSection) :
    (∀ x : Component, (onMomentumScrollEnd x ev).self.didScroll = x.didScroll) ∧
      ((run self (es1 ++ ListEvent.momentumScrollEnd ev :: es2)).self.didScroll = true ↔
        (self.didScroll = true ∨ ∃ e, ListEvent.scroll e ∈ es1)) ∧
      ((run self (es1 ++ ListEvent.momentumScrollEnd ev :: es2)).self.didScroll = false →
        (onViewableItemsChanged (run self (es1 ++ ListEvent.momentumScrollEnd ev :: es2)).self
          (some items)).effects = []) ∧
      ((run self (es1 ++ ListEvent.momentumScrollEnd ev :: es2)).self.didScroll = true →
        (onViewableItemsChanged (run self (es1 ++ ListEvent.momentumScrollEnd ev :: es2)).self
          (some items)).effects = [Effect.setDate (some t) UpdateSource.LIST_DRAG]) := by
  have hidle : (run self (es1 ++ ListEvent.momentumScrollEnd ev :: es2)).self.sectionScroll
      = false := by
    rw [(run_append self es1 (ListEvent.momentumScrollEnd ev :: es2)).1]
    simp only [run]
    exact run_keeps_idle _ es2 (by simp [dispatch, onMomentumScrollEnd])
  refine ⟨fun x => rfl, ?_, ?_, ?_⟩
  · rw [run_didScroll]
    constructor
    · rintro (h | ⟨e, he⟩)
      · exact Or.inl h
      · rcases List.mem_append.mp he with he | he
        · exact Or.inr ⟨e, he⟩
        · rcases List.mem_cons.mp he with he | he
          · cases he
          · exact absurd he (h2 e)
    · rintro (h | ⟨e, he⟩)
      · exact Or.inl h
      · exact Or.inr ⟨e, List.mem_append_left _ he⟩
  · intro hd
    simp [onViewableItemsChanged, hidle, ht, truthy, hne, hnew, hd]
  · intro hd
    simp [onViewableItemsChanged, hidle, ht, truthy, hne, hnew, hd]

/-- Witness for the amended C9: a scroll frame, the end of the momentum, then a
report of 2024-03-21 while 2024-03-20 is the last-synced section: the date is
written. -/
theorem didScroll_is_a_latch_witness :
    (onViewableItemsChanged
        (run marchAgenda
          ([ListEvent.scroll { tag := 1 }] ++ ListEvent.momentumScrollEnd { tag := 2 } :: [])).self
        (some [{ sectionOf := some { title := some "2024-03-21" } }])).effects =
      [Effect.setDate (some "2024-03-21") UpdateSource.LIST_DRAG] :=
  (didScroll_is_a_latch marchAgenda [ListEvent.scroll { tag := 1 }] [] { tag := 2 }
    [{ sectionOf := some { title := some "2024-03-21" } }] "2024-03-21"
    (by intro e he; cases he) rfl (by decide) (by decide)).2.2.2 (by decide)

/-! ## Momentum handlers -/

/-- C7: `onMomentumScrollBegin` first calls `context.setDisabled(true)`, once;
`onMomentumScrollEnd` first calls `context.setDisabled(false)`, once, and leaves
`sectionScroll` false whatever it was.  Each then forwards the same event to the
host handler of the same name when one is supplied and makes no further call;
neither calls `context.setDate`, changes `_topSection`, or throws. -/
theorem momentum_handlers_toggle_disabled (self : Component) (event : ScrollEvent) :
    ((onMomentumScrollBegin self event).effects.head? = some (Effect.setDisabled true) ∧
        setDisabledCalls (onMomentumScrollBegin self event).effects = 1 ∧
        (onMomentumScrollBegin self event).effects.tail =
          (if self.props.hasOnMomentumScrollBegin = true
            then [Effect.hostOnMomentumScrollBegin event] else []) ∧
        setDateCalls (onMomentumScrollBegin self event).effects = 0 ∧
        (onMomentumScrollBegin self event).self._topSection = self._topSection ∧
        (onMomentumScrollBegin self event).threw = false) ∧
      ((onMomentumScrollEnd self event).effects.head? = some (Effect.setDisabled false) ∧
        setDisabledCalls (onMomentumScrollEnd self event).effects = 1 ∧
        (onMomentumScrollEnd self event).effects.tail =
          (if self.props.hasOnMomentumScrollEnd = true
            then [Effect.hostOnMomentumScrollEnd event] else []) ∧
        (onMomentumScrollEnd self event).self.sectionScroll = false ∧
        setDateCalls (onMomentumScrollEnd self event).effects = 0 ∧
        (onMomentumScrollEnd self event).self._topSection = self._topSection ∧
        (onMomentumScrollEnd self event).threw = false) := by
  constructor
  · cases h : self.props.hasOnMomentumScrollBegin <;>
      simp [onMomentumScrollBegin, h, setDisabledCalls, setDateCalls, isSetDisabled, isSetDate]
  · cases h : self.props.hasOnMomentumScrollEnd <;>
      simp [onMomentumScrollEnd, h, setDisabledCalls, setDateCalls, isSetDisabled, isSetDate]

/-! ## Mount-time alignment and unmounting -/

theorem timerCallback_cases (self : Component) (cb : TimerCallback) :
    timerCallback self cb = { self := self, effects := [], threw := false } ∨
      ∃ j s, self.props.sections[j]? = some s ∧ s.title = cb.date ∧
        timerCallback self cb =
          { self := { self with sectionScroll := true, _topSection := s.title }
            effects := [Effect.scrollToLocation
              { animated := true
                sectionIndex := j
                itemIndex := 0
                viewPosition := 0
                viewOffset := if self.isAndroid then self.sectionHeight else some 0 }]
            threw := false } := by
  by_cases hm : self.listMounted = true
  case neg => exact Or.inl (scrollToSection_unmounted self _ (by simpa using hm))
  case pos =>
    by_cases hex : ∃ s ∈ self.props.sections, s.title = cb.date
    · obtain ⟨j, s, hj, hget, hts⟩ := getSectionIndex_some self _ hex
      refine Or.inr ⟨j, s, hget, hts, ?_⟩
      simp only [timerCallback]
      rw [hj, scrollToSection_valid self j s hm hget]
    · have hall : ∀ s ∈ self.props.sections, s.title ≠ cb.date := by
        intro t htm hte
        exact hex ⟨t, htm, hte⟩
      left
      simp only [timerCallback]
      rw [getSectionIndex_none self _ hall, scrollToSection_none]

/-- C6: `componentDidMount`, run on the freshly constructed component, schedules
one callback with a delay of 500 when the context date differs from the title
of the first section and nothing when they are equal, and makes no other call.
Whenever the callback fires, on the component `later` as it is by then, it runs
`scrollToSection` once for the index of the date read at mount: it makes no
`setDate` call, at most one `scrollToLocation` call, that call targets a
section titled with the date read at mount, and it is made whenever the list
is mounted and some section has that title. -/
theorem mount_time_alignment (props : Props) (isAndroid : Bool) (later : Component) :
    (componentDidMount (attachRef (constructor props isAndroid))).effects =
        (if props.context.date = props.sections.head?.bind (fun s => s.title) then []
         else [Effect.setTimeout { date := props.context.date } 500]) ∧
      (World.mount props isAndroid).timers =
        (if props.context.date = props.sections.head?.bind (fun s => s.title) then []
         else [({ date := props.context.date }, 500)]) ∧
      setDateCalls (componentDidMount (attachRef (constructor props isAndroid))).effects = 0 ∧
      timerCallback later { date := props.context.date } =
        scrollToSection later (getSectionIndex later props.context.date) ∧
      setDateCalls (timerCallback later { date := props.context.date }).effects = 0 ∧
      scrollCalls (timerCallback later { date := props.context.date }).effects ≤ 1 ∧
      (∀ req, Effect.scrollToLocation req ∈
          (timerCallback later { date := props.context.date }).effects →
        ∃ s, later.props.sections[req.sectionIndex]? = some s ∧
          s.title = props.context.date) ∧
      (later.listMounted = true →
        (∃ s ∈ later.props.sections, s.title = props.context.date) →
        scrollCalls (timerCallback later { date := props.context.date }).effects = 1) := by
  have hfirst : firstTitle props.sections = props.sections.head?.bind (fun s => s.title) := by
    cases props.sections <;> simp [firstTitle]
  have hmount : (componentDidMount (attachRef (constructor props isAndroid))).effects =
      (if props.context.date = props.sections.head?.bind (fun s => s.title) then []
       else [Effect.setTimeout { date := props.context.date } 500]) := by
    simp only [componentDidMount, attachRef, constructor, hfirst]
    by_cases h : props.context.date = props.sections.head?.bind (fun s => s.title) <;>
      simp [h]
  refine ⟨hmount, ?_, ?_, rfl, ?_, ?_, ?_, ?_⟩
  · simp only [World.mount, hmount]
    by_cases h : props.context.date = props.sections.head?.bind (fun s => s.title) <;>
      simp [h, scheduled]
  · rw [hmount]
    by_cases h : props.context.date = props.sections.head?.bind (fun s => s.title) <;>
      simp [h, setDateCalls, isSetDate]
  · rcases timerCallback_cases later { date := props.context.date } with h | ⟨j, s, _, _, h⟩ <;>
      simp [h, setDateCalls, isSetDate]
  · rcases timerCallback_cases later { date := props.context.date } with h | ⟨j, s, _, _, h⟩ <;>
      simp [h, scrollCalls, isScrollToLocation]
  · intro req hreq
    rcases timerCallback_cases later { date := props.context.date } with h | ⟨j, s, hget, hts, h⟩
    · simp [h] at hreq
    · rw [h] at hreq
      simp only [List.mem_singleton, Effect.scrollToLocation.injEq] at hreq
      subst hreq
      exact ⟨s, hget, hts⟩
  · intro hm hex
    obtain ⟨j, s, hj, hget, _⟩ := getSectionIndex_some later _ hex
    simp only [timerCallback]
    rw [hj, scrollToSection_valid later j s hm hget]
    simp [scrollCalls, isScrollToLocation]

theorem fire_unmounted (w : World) (h : w.agenda.listMounted = false) :
    (World.fire w).agenda = w.agenda ∧ (World.fire w).calls = w.calls ∧
      (World.fire w).timers = w.timers.tail := by
  cases ht : w.timers with
  | nil => simp [World.fire, ht]
  | cons tm rest =>
    obtain ⟨cb, delay⟩ := tm
    simp [World.fire, ht, timerCallback, scrollToSection_unmounted w.agenda _ h, scheduled]

theorem fires_unmounted (n : Nat) (w : World) (h : w.agenda.listMounted = false) :
    (World.fires n w).agenda = w.agenda ∧ (World.fires n w).calls = w.calls := by
  induction n generalizing w with
  | zero => simp [World.fires]
  | succ n ih =>
    obtain ⟨ha, hc, _⟩ := fire_unmounted w h
    have hrest := ih (World.fire w) (by rw [ha]; exact h)
    simp only [World.fires]
    rw [hrest.1, hrest.2, ha, hc]
    exact ⟨rfl, rfl⟩

/-- C10, as stated, fails: mounted with context date 2024-03-21 over sections
starting at 2024-03-20, the component schedules the alignment callback, and
after the unmount the callback is still among the pending timers. -/
theorem unmount_leaves_timer_pending :
    (World.mount (marchProps (some "2024-03-21") UpdateSource.CALENDAR_INIT) false).timers =
        [({ date := some "2024-03-21" }, 500)] ∧
      ¬ (({ date := some "2024-03-21" }, 500) ∉
        (World.unmount
          (World.mount (marchProps (some "2024-03-21") UpdateSource.CALENDAR_INIT) false)).timers)
    := by
  decide

/-- C10, amended: unmounting removes nothing from the pending timers (the
component keeps no timer handle and has no unmount hook), so a scheduled
alignment callback still fires; but the ref is empty by then, and however many
timers fire after the unmount, no call is made (so no `scrollToLocation` is
issued on the unmounted list) and the component is left as the unmount left
it. -/
theorem unmount_keeps_timers_guard_blocks_scroll (w : World) (n : Nat) :
    (World.unmount w).timers = w.timers ∧
      (World.fires n (World.unmount w)).calls = w.calls ∧
      scrollCalls (World.fires n (World.unmount w)).calls = scrollCalls w.calls ∧
      (World.fires n (World.unmount w)).agenda = detachRef w.agenda := by
  have h := fires_unmounted n (World.unmount w) rfl
  refine ⟨rfl, ?_, ?_, ?_⟩
  · rw [h.2]; rfl
  · rw [h.2]; rfl
  · rw [h.1]; rfl

end AgendaList
